import Mathlib

set_option maxRecDepth 40000

/-!
Verification of the mtbi repository's response-generation pipeline.

Python strings are embedded as `List Char` (`Str`); Python's string
primitives (`in`, `startswith`, `endswith`, `.strip()`, `.lower()`) are
defined below and used throughout.  The global `random` module state is
threaded explicitly as a `RandState`; functions that make no random call
take and return it untouched.  External services (OpenAI, Llama Cloud,
the LlamaIndex query engine) are oracles supplied in an environment
record: each call site receives the oracle's verbatim answer, either a
response text or the text of the raised exception.
-/

/-- Python strings as lists of characters. -/
abbrev Str := List Char

/-- A Lean string literal as a `Str`. -/
def pstr (s : String) : Str := s.data

/-- Python `needle in hay`: substring containment. -/
def pyIn (needle : Str) : Str → Bool
  | [] => needle.isEmpty
  | c :: t => needle.isPrefixOf (c :: t) || pyIn needle t

/-- Python `s.lower()` (all inputs in this code base are ASCII). -/
def pyLower (s : Str) : Str := s.map Char.toLower

/-- Python `s.strip()`: drop leading and trailing whitespace. -/
def pyStrip (s : Str) : Str :=
  ((s.dropWhile Char.isWhitespace).reverse.dropWhile Char.isWhitespace).reverse

/-- The fixed 16-type catalog (`utils.MBTI_TYPES`). -/
def MBTI_TYPES : List Str :=
  [pstr "INTJ", pstr "INTP", pstr "ENTJ", pstr "ENTP",
   pstr "INFJ", pstr "INFP", pstr "ENFJ", pstr "ENFP",
   pstr "ISTJ", pstr "ISFJ", pstr "ESTJ", pstr "ESFJ",
   pstr "ISTP", pstr "ISFP", pstr "ESTP", pstr "ESFP"]

/-- The `greetings` dict of `utils.simulate_mbti_response`, in insertion
order (Python dict iteration order). -/
def greetings : List (Str × List Str) :=
  [(pstr "hello", [pstr "Hi there!", pstr "Hello!", pstr "Hey!", pstr "Greetings!"]),
   (pstr "hi", [pstr "Hi!", pstr "Hello there!", pstr "Hey!"]),
   (pstr "hey", [pstr "Hey!", pstr "Hi there!", pstr "Hello!"]),
   (pstr "wassup", [pstr "Hey!", pstr "What's going on?", pstr "Not much, what's up with you?", pstr "Just thinking about stuff!"]),
   (pstr "how are you", [pstr "I'm doing well, thanks for asking!", pstr "Pretty good! How about you?", pstr "I'm great! Thanks for checking in."])]

/-- The first greeting key contained in the lowercased query, with its
response list (the `for greeting_key, responses in greetings.items()` loop). -/
def first_greeting (lower_query : Str) : Option (Str × List Str) :=
  greetings.find? fun kv => pyIn kv.1 lower_query

/-- The canned greeting reply: `responses[0]` plus a per-type-class tail. -/
def greeting_reply (mbti_type : Str) (responses : List Str) : Str :=
  if mbti_type ∈ [pstr "ENFP", pstr "ESFP", pstr "ENFJ", pstr "ESFJ"] then
    responses.headD [] ++ pstr " So great to hear from you! 😊 What's been on your mind lately?"
  else if mbti_type ∈ [pstr "ENTP", pstr "ESTP", pstr "ENTJ", pstr "ESTJ"] then
    responses.headD [] ++ pstr " What's happening? Anything interesting going on?"
  else if mbti_type ∈ [pstr "INFP", pstr "ISFP", pstr "INFJ", pstr "ISFJ"] then
    responses.headD [] ++ pstr " It's nice to connect with you today. How are you feeling?"
  else
    responses.headD [] ++ pstr " What can I help you with today?"

/-- The "where is everyone" replies of `simulate_mbti_response`. -/
def everyone_reply (mbti_type : Str) : Str :=
  if mbti_type ∈ [pstr "ENFP", pstr "ESFP"] then
    pstr "Oh, I was wondering the same thing! Maybe they're all having fun somewhere without us? Let's go find them! 🎉"
  else if mbti_type ∈ [pstr "ENTJ", pstr "ESTJ"] then
    pstr "Everyone's probably busy with their tasks. I've been organizing my schedule for maximum efficiency. Did you need someone specific?"
  else if mbti_type ∈ [pstr "INFJ", pstr "ENFJ"] then
    pstr "I've been wondering if everyone's okay actually. I hope they're just busy and not dealing with anything difficult. How about we check in on them?"
  else if mbti_type ∈ [pstr "INTJ", pstr "INTP"] then
    pstr "I hadn't really noticed their absence. I've been caught up in my own thoughts. Is there something specific you wanted to discuss with the group?"
  else
    pstr "Not sure where everyone went! What were you hoping to do with the group?"

/-- Whether the sports branch of `simulate_mbti_response` fires. -/
def sports_query (lower_query : Str) : Bool :=
  pyIn (pstr "sport") lower_query || pyIn (pstr "swimming") lower_query ||
  pyIn (pstr "running") lower_query || pyIn (pstr "workout") lower_query

/-- The sports `elif` chain of `simulate_mbti_response` as an ordered
(type, reply) table: one entry per `elif mbti_type == ...` branch. -/
def sports_table : List (Str × Str) :=
  [(pstr "INTJ",
    pstr "I see sports as a strategic optimization of physical capabilities. Swimming is efficient because it works multiple muscle groups with minimal joint impact. Have you analyzed which sport offers the best long-term benefits for your specific physiology?"),
   (pstr "INTP",
    pstr "Interesting choice. Swimming has fascinating physics involved - the interaction between fluid dynamics and biomechanics. I've been thinking about the theoretical perfect swimming form that would maximize propulsion while minimizing energy expenditure."),
   (pstr "ENTJ",
    pstr "Swimming is excellent for developing discipline and endurance. I've incorporated it into my weekly routine because it's time-efficient and builds cardio without the joint stress of running. What's your weekly training schedule look like?"),
   (pstr "ENTP",
    pstr "Swimming? Have you considered rock climbing? Or maybe parkour? There are so many fascinating ways to challenge your body! I keep switching between sports because each one presents new and interesting problems to solve."),
   (pstr "INFJ",
    pstr "I love how swimming feels like a moving meditation. The rhythm of breathing and the sensation of gliding through water can be so peaceful and centering. Does it help you connect with yourself too?"),
   (pstr "INFP",
    pstr "Swimming has this beautiful feeling of freedom, doesn't it? I love how it's just you and the water, and you can feel completely in your own world. It's almost poetic how it can be both calming and invigorating."),
   (pstr "ENFJ",
    pstr "Swimming is wonderful! I've actually been organizing a community swim group to help people stay active together. The social aspect of sports can be so uplifting - would you be interested in joining something like that?"),
   (pstr "ENFP",
    pstr "Swimming is amazing! I tried underwater photography last summer and it was INCREDIBLE! Have you ever done any fun swimming activities beyond just laps? There are so many exciting possibilities!"),
   (pstr "ISTJ",
    pstr "Swimming is a reliable, proven form of exercise with documented health benefits. I've been swimming three times a week for the past five years and have found it to be consistently effective for maintaining fitness."),
   (pstr "ISFJ",
    pstr "Swimming is such a nurturing activity, isn't it? I appreciate how gentle it is on the body while still providing a good workout. My mom had joint problems and swimming really helped her stay active."),
   (pstr "ESTJ",
    pstr "Swimming is efficient and practical. I schedule my swim sessions twice a week and track my lap times. Have you established a regular swimming routine? Consistency is key to seeing results."),
   (pstr "ESFJ",
    pstr "I love swimming too! The pool is such a great place to catch up with friends while getting exercise. Our community pool has become such a wonderful social hub. Do you swim with anyone regularly?"),
   (pstr "ISTP",
    pstr "Swimming is technically interesting. I've been tweaking my stroke mechanics to increase efficiency. Have you tried analyzing your technique with underwater video? You can spot inefficiencies that way."),
   (pstr "ISFP",
    pstr "There's something so beautiful about the feeling of water flowing around you while swimming. I especially love outdoor swimming - the connection with nature makes the experience so much more special."),
   (pstr "ESTP",
    pstr "Swimming is awesome! I've been getting into open water swimming for the extra challenge. Nothing beats the rush of swimming in a lake or ocean! Have you ever tried any competitive swimming events? They're a blast!"),
   (pstr "ESFP",
    pstr "Swimming is so fun! I joined a water aerobics class and it's a total party! The music, the people, the splashing around - it's exercise that doesn't feel like exercise! You should come with me sometime!")]

/-- The sports branch reply; `none` when the type matches no `elif`
(the sports chain has no `else`, so control falls through). -/
def sports_reply (mbti_type : Str) : Option Str :=
  (sports_table.find? fun kv => kv.1 == mbti_type).map Prod.snd

/-- The general `elif` chain of `simulate_mbti_response` as an ordered
(type, text-before-query, text-after-query) table: one entry per
`elif mbti_type == ...` branch, each reply embedding the query between
the two fixed texts. -/
def general_table : List (Str × Str × Str) :=
  [(pstr "INTJ", pstr "I've been considering ",
    pstr " from a strategic perspective. I see some interesting patterns and long-term implications. What specific aspect are you most interested in analyzing?"),
   (pstr "INTP", pstr "That's an intriguing topic to explore. I've been developing a theoretical framework about ",
    pstr " that examines the underlying logical principles. Would you like me to share my analysis so far?"),
   (pstr "ENTJ", pstr "Let's address ",
    pstr " efficiently. I've found that developing a clear action plan is the best approach. What specific outcomes are you looking to achieve here?"),
   (pstr "ENTP", pstr "",
    pstr "? That opens up so many fascinating possibilities! I've been playing devil's advocate with myself about this very topic. Have you considered the counterintuitive perspective that maybe...?"),
   (pstr "INFJ", pstr "I sense there's something deeper you're exploring with this question about ",
    pstr ". I've been reflecting on how this connects to our broader purpose. What meaning are you hoping to find here?"),
   (pstr "INFP", pstr "I've been feeling quite thoughtful about ",
    pstr " lately. It really resonates with my values around authentic self-expression. How does this topic connect with what matters most to you?"),
   (pstr "ENFJ", pstr "I appreciate you bringing up ",
    pstr "! I've been thinking about how this affects everyone in our circle. How can we approach this in a way that helps everyone grow and feel supported?"),
   (pstr "ENFP", pstr "Oh! ",
    pstr " is something I'm super excited about! I just had this amazing idea about it yesterday that connects to like five other interesting concepts! Want to brainstorm about it together?"),
   (pstr "ISTJ", pstr "Regarding ",
    pstr ", I believe in focusing on the established facts and reliable information. Based on my experience, consistency and attention to detail are key here. What specific aspects need clarification?"),
   (pstr "ISFJ", pstr "I care about how ",
    pstr " affects the people involved. I remember when we dealt with something similar before, and being supportive of each person's needs made all the difference. How can I help with this situation?"),
   (pstr "ESTJ", pstr "Let's be practical about ",
    pstr ". I find that clear procedures and defined responsibilities work best. Have you established a structured approach to address this yet?"),
   (pstr "ESFJ", pstr "I want to make sure everyone feels good about ",
    pstr ". Group harmony is so important! What can I do to help make this situation better for everyone involved?"),
   (pstr "ISTP", pstr "Let me break down ",
    pstr " into its practical components. I find that hands-on problem-solving is more effective than excessive planning. What specific issue needs troubleshooting?"),
   (pstr "ISFP", pstr "",
    pstr " really speaks to me on a personal level. I try to approach each situation authentically and in the moment. How does this resonate with your own personal experience?"),
   (pstr "ESTP", pstr "Let's take action on ",
    pstr "! Why overthink when we could be doing something about it right now? What's the immediate next step we can take to make progress?"),
   (pstr "ESFP", pstr "",
    pstr "? That sounds like an opportunity for some fun! Life's too short to be serious all the time. How can we turn this into an enjoyable experience for everyone?")]

/-- The general per-type reply, or the final fallback template for a
type outside the table. -/
def general_reply (mbti_type user_query : Str) : Str :=
  match general_table.find? fun kv => kv.1 == mbti_type with
  | some kv => kv.2.1 ++ user_query ++ kv.2.2
  | none => pstr "Tell me more about your thoughts on " ++ user_query ++ pstr ". I'd love to hear your perspective!"

/-- The body of `utils.simulate_mbti_response`: greeting check, then the
"where is everyone" check, then the sports chain (falling through to the
general section when the type matches no sports `elif`), then the general
per-type templates with a final fallback. -/
def simulate_text (mbti_type user_query : Str) : Str :=
  let lower_query := pyLower user_query
  match first_greeting lower_query with
  | some kv => greeting_reply mbti_type kv.2
  | none =>
    if pyIn (pstr "where") lower_query &&
        (pyIn (pstr "everyone") lower_query || pyIn (pstr "people") lower_query) then
      everyone_reply mbti_type
    else if sports_query lower_query then
      match sports_reply mbti_type with
      | some r => r
      | none => general_reply mbti_type user_query
    else
      general_reply mbti_type user_query

/-- The ambient `random`-module state: outcomes of `random.random() < 0.5`
tests and of `random.choice` index draws, consumed head first. -/
structure RandState where
  coins : List Bool
  picks : List Nat
deriving DecidableEq

/-- Consume one `random.random() < 0.5` outcome. -/
def rand_coin : RandState → Bool × RandState
  | ⟨b :: bs, ps⟩ => (b, ⟨bs, ps⟩)
  | ⟨[], ps⟩ => (false, ⟨[], ps⟩)

/-- Consume one `random.choice options` draw. -/
def rand_choice (options : List Str) : RandState → Str × RandState
  | ⟨bs, p :: ps⟩ => (options.getD (p % options.length) [], ⟨bs, ps⟩)
  | ⟨bs, []⟩ => (options.headD [], ⟨bs, []⟩)

/-- `utils.simulate_mbti_response` with the ambient random state threaded:
the source function makes no random call, so the state passes through
untouched and the text depends only on `(mbti_type, user_query)`. -/
def simulate_mbti_response (mbti_type user_query : Str) (g : RandState) : Str × RandState :=
  (simulate_text mbti_type user_query, g)

/-- The prefix pattern list of `_format_ai_response` / `format_response`
(identical in `mbti_chat.py` and `combined_integration.py`), in source
order. -/
def prefixes_to_remove (mbti_type : Str) : List Str :=
  [mbti_type ++ pstr ":",
   pstr "As an MBTI personality, ",
   pstr "As an " ++ mbti_type ++ pstr " personality, ",
   pstr "As an " ++ mbti_type ++ pstr ", ",
   pstr "As a " ++ mbti_type ++ pstr ", ",
   pstr "Response: "]

/-- The prefix-stripping loop: one pass over the pattern list in order;
each pattern that prefixes the current text is removed and the remainder
whitespace-stripped, and the loop continues with the later patterns. -/
def strip_prefixes (mbti_type response : Str) : Str :=
  (prefixes_to_remove mbti_type).foldl
    (fun r p => if p.isPrefixOf r then pyStrip (r.drop p.length) else r) response

/-- Types that receive the emphasis `"!"` treatment. -/
def emphatic_types : List Str := [pstr "ENFP", pstr "ESFP", pstr "ENFJ", pstr "ENTP"]

/-- Types that may receive an emoji. -/
def emoji_types : List Str := [pstr "ENFP", pstr "ESFP"]

/-- The `emoji_options` list, transcribed byte-for-byte from the source
files (which store these strings mojibake-encoded). -/
def emoji_options : List Str :=
  [pstr "ðŸ˜Š", pstr "âœ¨", pstr "ðŸ’«", pstr "ðŸŒŸ", pstr "ðŸ’¡", pstr "ðŸŽ‰", pstr "ðŸŒˆ"]

/-- `_format_ai_response` / `format_response`: strip prefixes, then for
emphatic types append `"!"` when the text has no `"!"` and does not end
in `"?"`, then for `ENFP`/`ESFP` append a random emoji with probability
one half. -/
def format_response (response mbti_type : Str) (g : RandState) : Str × RandState :=
  let r := strip_prefixes mbti_type response
  if mbti_type ∈ emphatic_types then
    let r2 := if !pyIn (pstr "!") r && !(pstr "?").isSuffixOf r then r ++ pstr "!" else r
    if mbti_type ∈ emoji_types then
      let c := rand_coin g
      if c.1 then
        let e := rand_choice emoji_options c.2
        (r2 ++ pstr " " ++ e.1, e.2)
      else (r2, c.2)
    else (r2, g)
  else (r, g)

/-- `"rate limit" in error_message or "429" in error_message` on the
lowercased exception text (combined_integration.py). -/
def is_rate_limit_error (e : Str) : Bool :=
  pyIn (pstr "rate limit") (pyLower e) || pyIn (pstr "429") (pyLower e)

/-- `max_retries = 3`. -/
def max_retries : Nat := 3

/-- One observable step of a provider adapter: a generation attempt, or a
backoff wait of the given number of seconds. -/
inductive ProviderEvent where
  | call (attempt : Nat)
  | wait (seconds : Nat)
deriving DecidableEq

/-- The OpenAI retry loop of `IntegratedMBTISystem.generate_response`
(`for attempt in range(max_retries)`): on success return the stripped
content; on a rate-limit error sleep `2 ^ attempt + 1` seconds and retry
unless this was the last attempt; on any other error leave the loop.
`attempts i` is the outcome of the `i`-th API call; the event list
records the calls made and the waits taken, in order. -/
def openai_generate_go (attempts : Nat → Except Str Str) : Nat → Nat → Option Str × List ProviderEvent
  | 0, _ => (none, [])
  | fuel + 1, attempt =>
    match attempts attempt with
    | .ok content => (some (pyStrip content), [.call attempt])
    | .error e =>
      if is_rate_limit_error e then
        if attempt < max_retries - 1 then
          ((openai_generate_go attempts fuel (attempt + 1)).1,
           .call attempt :: .wait (2 ^ attempt + 1) :: (openai_generate_go attempts fuel (attempt + 1)).2)
        else (none, [.call attempt])
      else (none, [.call attempt])

/-- The OpenAI retry loop, started at attempt 0 with `range(3)` iterations. -/
def openai_generate_with_retries (attempts : Nat → Except Str Str) : Option Str × List ProviderEvent :=
  openai_generate_go attempts max_retries 0

/-- Calls recorded in an event trace. -/
def call_count (evs : List ProviderEvent) : Nat :=
  (evs.filter fun e => match e with | .call _ => true | .wait _ => false).length

/-- Backoff waits recorded in an event trace, in order. -/
def wait_list (evs : List ProviderEvent) : List Nat :=
  evs.filterMap fun e => match e with | .wait s => some s | .call _ => none

/-- The retry loop of `llama_integration.generate_llama_response`: it
retries EVERY exception (no rate-limit classification), returns `None`
after the last attempt fails, and sleeps `(2 ** attempt) * 0.5` seconds
between attempts. -/
def llama_generate_go (attempts : Nat → Except Str Str) : Nat → Nat → Option Str
  | 0, _ => none
  | fuel + 1, attempt =>
    match attempts attempt with
    | .ok content => some content
    | .error _ =>
      if attempt == max_retries - 1 then none
      else llama_generate_go attempts fuel (attempt + 1)

/-- Python truthiness of an optional key (`if not openai_api_key`): both a
missing key and an empty-string key are falsy. -/
def key_truthy : Option Str → Bool
  | some k => !k.isEmpty
  | none => false

/-- The ambient credential sources: Streamlit secrets (when the attribute
exists and holds the key) and the process environment. -/
structure CredEnv where
  has_secrets : Bool
  secrets_openai_key : Option Str
  env_openai_key : Option Str
  secrets_llama_key : Option Str
  env_llama_key : Option Str

/-- `st.secrets['OPENAI_API_KEY'] if hasattr(st, 'secrets') and 'OPENAI_API_KEY' in st.secrets else os.getenv("OPENAI_API_KEY")`. -/
def resolved_openai_key (c : CredEnv) : Option Str :=
  if c.has_secrets && c.secrets_openai_key.isSome then c.secrets_openai_key
  else c.env_openai_key

/-- The same lookup for `LLAMA_CLOUD_API_KEY` (llama_integration.py). -/
def resolved_llama_key (c : CredEnv) : Option Str :=
  if c.has_secrets && c.secrets_llama_key.isSome then c.secrets_llama_key
  else c.env_llama_key

/-- `llama_integration.get_llama_client`: `None` when the package is
missing, the cached client when present, `None` when the key is falsy or
construction fails, else the fresh client. -/
def get_llama_client (module_available : Bool) (cached : Option Unit) (c : CredEnv)
    (construction_ok : Bool) : Option Unit :=
  if !module_available then none
  else
    match cached with
    | some cl => some cl
    | none =>
      if !key_truthy (resolved_llama_key c) then none
      else if construction_ok then some () else none

/-- `llama_integration.generate_llama_response`: `None` without the
package or a client, else the retry loop over the attempt oracle. -/
def generate_llama_response (module_available : Bool) (client : Option Unit)
    (attempts : Nat → Except Str Str) : Option Str :=
  if !module_available then none
  else
    match client with
    | none => none
    | some _ => llama_generate_go attempts max_retries 0

/-- The connection-test loop of `IntegratedMBTISystem._setup_openai`:
same retry policy as the generation loop; `true` iff some test call
succeeds. -/
def openai_test_go (tests : Nat → Except Str Unit) : Nat → Nat → Bool
  | 0, _ => false
  | fuel + 1, attempt =>
    match tests attempt with
    | .ok _ => true
    | .error e =>
      if is_rate_limit_error e then
        if attempt < max_retries - 1 then openai_test_go tests fuel (attempt + 1)
        else false
      else false

/-- `IntegratedMBTISystem._setup_openai`, returning the resulting
`services["openai"]` flag: `false` without the package, a truthy key, or
a constructible client; else the outcome of the connection test. -/
def setup_openai (openai_pkg : Bool) (c : CredEnv) (client_ok : Bool)
    (tests : Nat → Except Str Unit) : Bool :=
  if !openai_pkg then false
  else if !key_truthy (resolved_openai_key c) then false
  else if !client_ok then false
  else openai_test_go tests max_retries 0

/-- `mtbi_chat.MBTIMultiChat.__init__`: raises
`ValueError("OpenAI API key is required")` when the resolved key is
falsy, else proceeds with the remaining construction (an oracle). -/
def mtbi_multichat_init (c : CredEnv) (rest : Except Str Unit) : Except Str Unit :=
  if !key_truthy (resolved_openai_key c) then .error (pstr "OpenAI API key is required")
  else rest

/-- The `services` availability dict of `IntegratedMBTISystem`. -/
structure Services where
  weaviate : Bool
  openai : Bool
  llama_cloud : Bool
  llama_index : Bool

/-- The state an `IntegratedMBTISystem.generate_response` call runs in:
module import flags, the availability dict, the LlamaIndex objects, and
one oracle per external call site (the query engine, the Llama Cloud
attempts, the OpenAI attempts).  An oracle's `.error e` is the text of
the exception the call raised. -/
structure SysEnv where
  openai_pkg : Bool
  llama_cloud_avail : Bool
  services : Services
  llama_index_obj : Bool
  retriever_ok : Bool
  query_engine : Str → Except Str Str
  llama_module : Bool
  llama_client : Option Unit
  llama_attempts : Nat → Except Str Str
  openai_attempts : Nat → Except Str Str

/-- The seven types routed to Llama Cloud first by
`_initialize_model_allocation`. -/
def analytical_types : List Str :=
  [pstr "INTJ", pstr "INTP", pstr "ENTJ", pstr "ENTP", pstr "ISTJ", pstr "ESTJ", pstr "ISTP"]

/-- `_initialize_model_allocation` followed by
`self.model_allocation.get(mbti_type, "simulation")`: analytical types
prefer `llama_cloud` when available, all others `openai`; with no OpenAI
package everything moves to `llama_cloud` or, failing that,
`simulation`; unknown types default to `simulation`. -/
def model_allocation (env : SysEnv) (mbti_type : Str) : Str :=
  if mbti_type ∈ MBTI_TYPES then
    if !env.openai_pkg && env.llama_cloud_avail then pstr "llama_cloud"
    else if !env.openai_pkg && !env.llama_cloud_avail then pstr "simulation"
    else if mbti_type ∈ analytical_types then
      if env.llama_cloud_avail then pstr "llama_cloud" else pstr "openai"
    else pstr "openai"
  else pstr "simulation"

/-- The personalized query of the LlamaIndex branch (triple-quoted
f-string, 20-space indentation). -/
def personalized_query (query mbti_type : Str) : Str :=
  pstr "\n                    Question: " ++ query ++
  pstr "\n\n                    How would an " ++ mbti_type ++
  pstr " personality type respond to this? \n                    Consider their cognitive functions, core values, and communication style.\n                    Make your response sound like a casual friend, not an analysis.\n                    "

/-- Step 1 of `generate_response`: the LlamaIndex knowledge-base path.
`some text` when the service is up, a retriever exists and the query
engine answers; `none` when the branch is skipped or its `try` block
raises. -/
def li_step (env : SysEnv) (query mbti_type : Str) : Option Str :=
  if env.services.llama_index && env.llama_index_obj then
    if env.retriever_ok then
      match env.query_engine (personalized_query query mbti_type) with
      | .ok r => some r
      | .error _ => none
    else none
  else none

/-- Step 2 of `generate_response`: the Llama Cloud path.  Runs only when
the allocated model is `llama_cloud` and the service is marked up; the
`if response:` test drops a `None` or empty result. -/
def lc_step (env : SysEnv) (model : Str) : Option Str :=
  if model == pstr "llama_cloud" && env.services.llama_cloud then
    match generate_llama_response env.llama_module env.llama_client env.llama_attempts with
    | some r => if !r.isEmpty then some r else none
    | none => none
  else none

/-- Step 3 of `generate_response`: the OpenAI path with retries.  Runs
when the allocated model is `openai`, or is `llama_cloud` with the Llama
service down, and the OpenAI service is marked up. -/
def oa_step (env : SysEnv) (model : Str) : Option Str :=
  if (model == pstr "openai" || (model == pstr "llama_cloud" && !env.services.llama_cloud))
      && env.services.openai then
    (openai_generate_with_retries env.openai_attempts).1
  else none

/-- `IntegratedMBTISystem.generate_response`: try the LlamaIndex path,
then Llama Cloud, then OpenAI — formatting and returning the first
success — and fall back to `simulate_mbti_response` (returned without
formatting) when every provider was skipped or failed. -/
def generate_response (env : SysEnv) (query mbti_type : Str) (g : RandState) : Str × RandState :=
  let model := model_allocation env mbti_type
  match li_step env query mbti_type with
  | some text => format_response text mbti_type g
  | none =>
    match lc_step env model with
    | some text => format_response text mbti_type g
    | none =>
      match oa_step env model with
      | some text => format_response text mbti_type g
      | none => simulate_mbti_response mbti_type query g

/-- Every external provider call is configured to fail: the query engine
raises on every input, and every Llama Cloud and OpenAI attempt raises. -/
def all_providers_fail (env : SysEnv) : Prop :=
  (∀ p, ∃ e, env.query_engine p = .error e) ∧
  (∀ i, ∃ e, env.llama_attempts i = .error e) ∧
  (∀ i, ∃ e, env.openai_attempts i = .error e)

/-- A concrete environment in which every service is configured and
marked up but every provider call raises. -/
def env_fail : SysEnv where
  openai_pkg := true
  llama_cloud_avail := true
  services := ⟨true, true, true, true⟩
  llama_index_obj := true
  retriever_ok := true
  query_engine := fun _ => .error (pstr "boom")
  llama_module := true
  llama_client := some ()
  llama_attempts := fun _ => .error (pstr "boom")
  openai_attempts := fun _ => .error (pstr "boom")

/-- The empty random state. -/
def rand0 : RandState := ⟨[], []⟩

/-- Python `sep.join(xs)`. -/
def join_sep (sep : Str) (xs : List Str) : Str := (xs.intersperse sep).flatten

/-- Dict lookup in the round-responses mapping (association list built in
participant order; every participant of the round is a key). -/
def lookupD (m : List (Str × Str)) (k : Str) : Str :=
  ((m.find? fun kv => kv.1 == k).map Prod.snd).getD []

/-- The context comprehension of `group_discussion`:
`"\n".join(f"{other}: {responses[other]}" for other in participants if other != me)`. -/
def build_context (participants : List Str) (round_responses : List (Str × Str)) (me : Str) : Str :=
  join_sep (pstr "\n")
    ((participants.filter fun o => !(o == me)).map
      fun o => o ++ pstr ": " ++ lookupD round_responses o)

/-- The round-`r` prompt of `IntegratedMBTISystem.group_discussion`
(triple-quoted f-string, 16-space indentation). -/
def round_prompt (topic : Str) (participants : List Str) (prev : List (Str × Str)) (me : Str) : Str :=
  pstr "\n                Topic: " ++ topic ++
  pstr "\n\n                Here are comments from other MBTI personalities:\n                " ++
  build_context participants prev me ++
  pstr "\n\n                How would you (as an " ++ me ++
  pstr ") respond to these comments?\n                "

/-- Round 1 of `group_discussion`: every participant answers the topic
directly, in participant order. -/
def round_responses_1 (respond : Str → Str → Str) (topic : Str) (participants : List Str) :
    List (Str × Str) :=
  participants.map fun p => (p, respond topic p)

/-- Decimal digits of a natural number, for the `(Round {n})` tags. -/
def nat_str (n : Nat) : Str := Nat.toDigits 10 n

/-- The `for round_num in range(2, num_rounds + 1)` loop of
`group_discussion`: each iteration builds every participant's new
response from the immediately preceding round's responses (`prev`), tags
the entries with the round number, and passes only the new responses on
(`round_responses = new_responses`). -/
def rounds_go (respond : Str → Str → Str) (topic : Str) (participants : List Str) :
    Nat → Nat → List (Str × Str) → List Str
  | 0, _, _ => []
  | k + 1, round_num, prev =>
    let pairs := participants.map fun p => (p, respond (round_prompt topic participants prev p) p)
    let entries := pairs.map fun pr => pr.1 ++ pstr " (Round " ++ nat_str round_num ++ pstr "): " ++ pr.2
    entries ++ rounds_go respond topic participants k (round_num + 1) pairs

/-- `group_discussion` with an explicit participant list (the
`participants=None` random-sampling path is not modelled), generic over
the per-call responder `respond query mbti_type`. -/
def group_discussion (respond : Str → Str → Str) (topic : Str) (participants : List Str)
    (num_rounds : Nat) : List Str :=
  let header := pstr "Group discussion on: " ++ topic ++ pstr "\nParticipants: " ++
    join_sep (pstr ", ") participants
  let r1 := round_responses_1 respond topic participants
  let entries1 := r1.map fun pr => pr.1 ++ pstr ": " ++ pr.2
  header :: (entries1 ++ rounds_go respond topic participants (num_rounds - 1) 2 r1)

lemma pyIn_iff (n l : Str) : pyIn n l = true ↔ List.IsInfix n l := by
  induction l with
  | nil => simp [pyIn, List.isEmpty_iff, List.infix_nil]
  | cons c t ih =>
    simp [pyIn, Bool.or_eq_true, List.isPrefixOf_iff_prefix, ih, List.infix_cons_iff]

lemma pyIn_single_iff (c : Char) (l : Str) : pyIn [c] l = true ↔ c ∈ l := by
  rw [pyIn_iff]
  constructor
  · intro h
    exact List.singleton_sublist.mp h.sublist
  · intro h
    obtain ⟨s, t, rfl⟩ := List.append_of_mem h
    exact ⟨s, t, by simp⟩

lemma pyStrip_sublist (s : Str) : List.Sublist (pyStrip s) s := by
  unfold pyStrip
  have h1 : List.Sublist (s.dropWhile Char.isWhitespace) s := List.dropWhile_sublist _
  have h2 : List.Sublist ((s.dropWhile Char.isWhitespace).reverse.dropWhile Char.isWhitespace)
      (s.dropWhile Char.isWhitespace).reverse := List.dropWhile_sublist _
  have h3 := h2.reverse
  rw [List.reverse_reverse] at h3
  exact h3.trans h1

lemma strip_step_sublist (r p : Str) :
    List.Sublist (if p.isPrefixOf r then pyStrip (r.drop p.length) else r) r := by
  split
  · exact (pyStrip_sublist _).trans (List.drop_sublist _ _)
  · exact List.Sublist.refl r

lemma strip_foldl_sublist (ps : List Str) : ∀ s : Str,
    List.Sublist (ps.foldl (fun r p => if p.isPrefixOf r then pyStrip (r.drop p.length) else r) s) s := by
  induction ps with
  | nil => intro s; exact List.Sublist.refl s
  | cons p ps ih =>
    intro s
    exact (ih _).trans (strip_step_sublist s p)

lemma strip_prefixes_sublist (t s : Str) : List.Sublist (strip_prefixes t s) s :=
  strip_foldl_sublist (prefixes_to_remove t) s

lemma strip_foldl_no_match (ps : List Str) (s : Str) (h : ∀ p ∈ ps, p.isPrefixOf s = false) :
    ps.foldl (fun r p => if p.isPrefixOf r then pyStrip (r.drop p.length) else r) s = s := by
  induction ps with
  | nil => rfl
  | cons p ps ih =>
    have hp := h p (by simp)
    simp only [List.foldl_cons]
    rw [show (if p.isPrefixOf s then pyStrip (s.drop p.length) else s) = s by simp [hp]]
    exact ih fun q hq => h q (by simp [hq])

lemma strip_prefixes_no_match (t s : Str)
    (h : ∀ p ∈ prefixes_to_remove t, p.isPrefixOf s = false) : strip_prefixes t s = s :=
  strip_foldl_no_match (prefixes_to_remove t) s h

lemma greeting_reply_ne_nil (t : Str) (rs : List Str) : greeting_reply t rs ≠ [] := by
  unfold greeting_reply
  split_ifs <;> exact List.append_ne_nil_of_right_ne_nil _ (by decide)

lemma everyone_reply_ne_nil (t : Str) : everyone_reply t ≠ [] := by
  unfold everyone_reply
  split_ifs <;> decide

lemma sports_reply_ne_nil (t r : Str) (h : sports_reply t = some r) : r ≠ [] := by
  unfold sports_reply at h
  rw [Option.map_eq_some'] at h
  obtain ⟨kv, hf, hr⟩ := h
  subst hr
  have hm := List.mem_of_find?_eq_some hf
  exact (by decide : ∀ kv ∈ sports_table, kv.2 ≠ []) kv hm

lemma general_reply_ne_nil (t q : Str) : general_reply t q ≠ [] := by
  unfold general_reply
  cases hf : general_table.find? fun kv => kv.1 == t with
  | none =>
    exact List.append_ne_nil_of_right_ne_nil _ (by decide)
  | some kv =>
    have hm := List.mem_of_find?_eq_some hf
    have h2 : kv.2.2 ≠ [] := (by decide : ∀ kv ∈ general_table, kv.2.2 ≠ []) kv hm
    exact List.append_ne_nil_of_right_ne_nil _ h2

lemma simulate_text_ne_nil (t q : Str) : simulate_text t q ≠ [] := by
  simp only [simulate_text]
  cases hfg : first_greeting (pyLower q) with
  | some kv => exact greeting_reply_ne_nil t kv.2
  | none =>
    split_ifs
    · exact everyone_reply_ne_nil t
    · cases hsr : sports_reply t with
      | some r => exact sports_reply_ne_nil t r hsr
      | none => exact general_reply_ne_nil t q
    · exact general_reply_ne_nil t q

lemma count_strip_prefixes_le (t s : Str) (c : Char) :
    (strip_prefixes t s).count c ≤ s.count c :=
  (strip_prefixes_sublist t s).count_le c

lemma emoji_getD_count (k : Nat) : ((emoji_options.getD k []).count '!') = 0 := by
  rcases k with _ | _ | _ | _ | _ | _ | _ | k
  · decide
  · decide
  · decide
  · decide
  · decide
  · decide
  · decide
  · rw [List.getD_eq_default]
    · rfl
    · simp [emoji_options]

lemma rand_choice_emoji_count (g : RandState) :
    ((rand_choice emoji_options g).1).count '!' = 0 := by
  rcases g with ⟨bs, _ | ⟨p, ps⟩⟩
  · exact (by decide : ((emoji_options.headD []).count '!') = 0)
  · exact emoji_getD_count (p % emoji_options.length)

lemma count_emph_append_le_one (r : Str) (hr : r.count '!' ≤ 1) :
    (if !pyIn (pstr "!") r && !(pstr "?").isSuffixOf r then r ++ pstr "!" else r).count '!' ≤ 1 := by
  split_ifs with hcond
  · have hnot : pyIn (pstr "!") r = false := by
      rcases (Bool.and_eq_true ..).mp hcond with ⟨h1, _⟩
      simpa using h1
    have hmem : '!' ∉ r := by
      intro hm
      have hgot : pyIn (pstr "!") r = true := by
        rw [show pstr "!" = ['!'] from rfl]
        exact (pyIn_single_iff '!' r).mpr hm
      rw [hgot] at hnot
      cases hnot
    rw [List.count_append, List.count_eq_zero.mpr hmem]
    decide
  · exact hr

lemma count_format_le_one (s t : Str) (g : RandState) (h : s.count '!' ≤ 1) :
    ((format_response s t g).1).count '!' ≤ 1 := by
  have hc : (strip_prefixes t s).count '!' ≤ 1 := le_trans (count_strip_prefixes_le t s '!') h
  have hc2 := count_emph_append_le_one (strip_prefixes t s) hc
  unfold format_response
  by_cases hE : t ∈ emphatic_types
  · by_cases hM : t ∈ emoji_types
    · rcases hg : rand_coin g with ⟨b, g'⟩
      cases b
      · simp only [if_pos hE, if_pos hM, hg]
        exact hc2
      · simp only [if_pos hE, if_pos hM, hg, if_true, ite_true, List.count_append]
        have he := rand_choice_emoji_count g'
        have hsp : (pstr " ").count '!' = 0 := by decide
        omega
    · simp only [if_pos hE, if_neg hM]
      exact hc2
  · simp only [if_neg hE]
    exact hc

lemma count_ge_two_of_double_bang (l : Str) (h : pyIn (pstr "!!") l = true) :
    2 ≤ l.count '!' := by
  rw [pyIn_iff] at h
  obtain ⟨u, v, rfl⟩ := h
  simp only [List.count_append]
  have h2 : (pstr "!!").count '!' = 2 := by decide
  omega

lemma no_double_bang (l : Str) (h : l.count '!' ≤ 1) : pyIn (pstr "!!") l = false := by
  by_contra hne
  have := count_ge_two_of_double_bang l (by revert hne; cases pyIn (pstr "!!") l <;> simp)
  omega

lemma li_step_none (env : SysEnv) (q t : Str)
    (h : ∀ p, ∃ e, env.query_engine p = .error e) : li_step env q t = none := by
  obtain ⟨e, he⟩ := h (personalized_query q t)
  simp only [li_step, he]
  split_ifs <;> rfl

lemma llama_go_none (att : Nat → Except Str Str)
    (h : ∀ i, ∃ e, att i = .error e) : llama_generate_go att max_retries 0 = none := by
  obtain ⟨e0, h0⟩ := h 0
  obtain ⟨e1, h1⟩ := h 1
  obtain ⟨e2, h2⟩ := h 2
  simp [llama_generate_go, max_retries, h0, h1, h2]

lemma generate_llama_none (m : Bool) (cl : Option Unit) (att : Nat → Except Str Str)
    (h : ∀ i, ∃ e, att i = .error e) : generate_llama_response m cl att = none := by
  unfold generate_llama_response
  cases m
  · rfl
  · cases cl
    · rfl
    · simpa using llama_go_none att h

lemma lc_step_none (env : SysEnv) (model : Str)
    (h : ∀ i, ∃ e, env.llama_attempts i = .error e) : lc_step env model = none := by
  unfold lc_step
  split_ifs
  · rw [generate_llama_none env.llama_module env.llama_client env.llama_attempts h]
  · rfl

lemma openai_go_none (att : Nat → Except Str Str)
    (h : ∀ i, ∃ e, att i = .error e) :
    ∀ fuel i, (openai_generate_go att fuel i).1 = none := by
  intro fuel
  induction fuel with
  | zero => intro i; rfl
  | succ n ih =>
    intro i
    obtain ⟨e, he⟩ := h i
    simp only [openai_generate_go, he]
    split_ifs <;> simp [ih]

lemma oa_step_none (env : SysEnv) (model : Str)
    (h : ∀ i, ∃ e, env.openai_attempts i = .error e) : oa_step env model = none := by
  unfold oa_step
  split_ifs
  · exact openai_go_none env.openai_attempts h max_retries 0
  · rfl

lemma generate_response_all_fail (env : SysEnv) (h : all_providers_fail env)
    (q t : Str) (g : RandState) :
    generate_response env q t g = (simulate_text t q, g) := by
  obtain ⟨hqe, hla, hoa⟩ := h
  have hlc : ∀ m, lc_step env m = none := fun m => lc_step_none env m hla
  have hoa2 : ∀ m, oa_step env m = none := fun m => oa_step_none env m hoa
  simp only [generate_response, li_step_none env q t hqe, hlc, hoa2]
  rfl

/-- C1: for every personality type in the fixed 16-type catalog and every
non-empty query, the orchestrator's respond operation returns a non-empty
string even when every external provider is configured to always fail:
the template simulator is the unconditional final fallback (and the
embedding is a total function, so no exception reaches the caller). -/
theorem C1_respond_nonempty_when_all_fail (env : SysEnv) (h : all_providers_fail env)
    (t : Str) (ht : t ∈ MBTI_TYPES) (q : Str) (hq : q ≠ []) (g : RandState) :
    (generate_response env q t g).1 ≠ [] := by
  rw [generate_response_all_fail env h q t g]
  exact simulate_text_ne_nil t q

/-- Witness for C1 at the concrete always-failing environment, type INTJ
and query "hi". -/
theorem C1_respond_nonempty_when_all_fail_witness :
    (generate_response env_fail (pstr "hi") (pstr "INTJ") rand0).1 ≠ [] :=
  C1_respond_nonempty_when_all_fail env_fail
    ⟨fun _ => ⟨pstr "boom", rfl⟩, fun _ => ⟨pstr "boom", rfl⟩, fun _ => ⟨pstr "boom", rfl⟩⟩
    (pstr "INTJ") (by decide) (pstr "hi") (by decide) rand0

/-- C2 counterexample: with every provider failing, the orchestrator
returns the raw simulator output, and for type ENTP with query
"ENTP: foo" the ResponseFormatter would have changed that output (it
strips the leading "ENTP:"), so the fallback text is NOT formatted the
way a provider response would be. -/
theorem C2_fallback_formatted_counterexample :
    (generate_response env_fail (pstr "ENTP: foo") (pstr "ENTP") rand0).1
      = simulate_text (pstr "ENTP") (pstr "ENTP: foo") ∧
    (format_response (simulate_text (pstr "ENTP") (pstr "ENTP: foo")) (pstr "ENTP") rand0).1
      ≠ simulate_text (pstr "ENTP") (pstr "ENTP: foo") := by
  decide

/-- C2 (amended): when every provider in the resolved order was skipped
or failed, the orchestrator returns the TemplateSimulator output as-is —
the ResponseFormatter post-processing is NOT applied on the fallback
path (both `generate_response` and `chat_with_type` return
`simulate_mbti_response(...)` directly). -/
theorem C2_fallback_returns_raw_simulation (env : SysEnv) (h : all_providers_fail env)
    (q t : Str) (g : RandState) :
    generate_response env q t g = (simulate_text t q, g) :=
  generate_response_all_fail env h q t g

/-- Witness for C2 (amended) at the concrete always-failing environment. -/
theorem C2_fallback_returns_raw_simulation_witness :
    generate_response env_fail (pstr "hello there") (pstr "ENFP") rand0
      = (simulate_text (pstr "ENFP") (pstr "hello there"), rand0) :=
  C2_fallback_returns_raw_simulation env_fail
    ⟨fun _ => ⟨pstr "boom", rfl⟩, fun _ => ⟨pstr "boom", rfl⟩, fun _ => ⟨pstr "boom", rfl⟩⟩
    (pstr "hello there") (pstr "ENFP") rand0

/-- C3 counterexample: `mtbi_chat.MBTIMultiChat.__init__` raises
`ValueError("OpenAI API key is required")` when no OpenAI key is
configured, so a missing credential does crash that construction. -/
theorem C3_missing_key_crash_counterexample :
    mtbi_multichat_init ⟨false, none, none, none, none⟩ (.ok ()) =
      .error (pstr "OpenAI API key is required") := rfl

/-- C3 (amended): in `combined_integration.py` and `llama_integration.py`
a missing key degrades gracefully — `_setup_openai` leaves the service
unavailable, `get_llama_client` returns `None`, and with all services
down `generate_response` returns the simulation — but the claim's
"every construction" fails because `mtbi_chat.MBTIMultiChat.__init__`
raises on a missing OpenAI key (see the counterexample). -/
theorem C3_missing_key_degrades :
    (∀ (pkg : Bool) (c : CredEnv) (cl : Bool) (tests : Nat → Except Str Unit),
      key_truthy (resolved_openai_key c) = false → setup_openai pkg c cl tests = false) ∧
    (∀ (m : Bool) (c : CredEnv) (ok : Bool),
      key_truthy (resolved_llama_key c) = false → get_llama_client m none c ok = none) ∧
    (∀ (env : SysEnv) (q t : Str) (g : RandState),
      env.services.llama_index = false → env.services.llama_cloud = false →
      env.services.openai = false → generate_response env q t g = (simulate_text t q, g)) := by
  refine ⟨?_, ?_, ?_⟩
  · intro pkg c cl tests hkey
    simp [setup_openai, hkey]
  · intro m c ok hkey
    cases m
    · rfl
    · simp [get_llama_client, hkey]
  · intro env q t g h1 h2 h3
    have hli : li_step env q t = none := by simp [li_step, h1]
    have hlc : ∀ m, lc_step env m = none := by intro m; simp [lc_step, h2]
    have hoa : ∀ m, oa_step env m = none := by intro m; simp [oa_step, h3]
    simp only [generate_response, hli, hlc, hoa]
    rfl

/-- A credential environment with no secrets and no environment keys. -/
def cred_none : CredEnv := ⟨false, none, none, none, none⟩

/-- An environment in which no service came up (all availability flags
false), as after construction with no credentials. -/
def env_none : SysEnv where
  openai_pkg := true
  llama_cloud_avail := false
  services := ⟨false, false, false, false⟩
  llama_index_obj := false
  retriever_ok := false
  query_engine := fun _ => .error (pstr "unavailable")
  llama_module := false
  llama_client := none
  llama_attempts := fun _ => .error (pstr "unavailable")
  openai_attempts := fun _ => .error (pstr "unavailable")

/-- Witness for C3 (amended) at concrete credential-less inputs. -/
theorem C3_missing_key_degrades_witness :
    setup_openai true cred_none true (fun _ => .ok ()) = false ∧
    get_llama_client true none cred_none true = none ∧
    generate_response env_none (pstr "hey") (pstr "ENFP") rand0
      = (simulate_text (pstr "ENFP") (pstr "hey"), rand0) :=
  ⟨C3_missing_key_degrades.1 true cred_none true (fun _ => .ok ()) (by decide),
   C3_missing_key_degrades.2.1 true cred_none true (by decide),
   C3_missing_key_degrades.2.2 env_none (pstr "hey") (pstr "ENFP") rand0 rfl rfl rfl⟩

/-- C9: the template simulator is a deterministic, total, pure function
of (type, query): its output is independent of the ambient random state,
and it neither consumes nor alters that state (the source makes no
random call and no I/O; the embedding is a total function, so there is
no failure mode). -/
theorem C9_simulator_deterministic (t q : Str) (g₁ g₂ : RandState) :
    (simulate_mbti_response t q g₁).1 = (simulate_mbti_response t q g₂).1 ∧
    (simulate_mbti_response t q g₁).2 = g₁ :=
  ⟨rfl, rfl⟩

/-- C10: greeting detection is substring matching on the lowercased
query: whenever some greeting key is contained in the query, the reply
is the canned greeting for the first matching key — a function of the
type and the matched key only, independent of the rest of the query —
and in particular "this" (which merely contains "hi") gets the fixed
canned reply, which does not contain the query text. -/
theorem C10_greeting_substring_detection :
    (∀ (t q : Str) (kv : Str × List Str), first_greeting (pyLower q) = some kv →
      simulate_text t q = greeting_reply t kv.2) ∧
    (∀ (t q q' : Str), first_greeting (pyLower q) = first_greeting (pyLower q') →
      (first_greeting (pyLower q)).isSome = true →
      simulate_text t q = simulate_text t q') ∧
    pyIn (pstr "hi") (pyLower (pstr "this")) = true ∧
    simulate_text (pstr "INTJ") (pstr "this") = pstr "Hi! What can I help you with today?" ∧
    pyIn (pstr "this") (simulate_text (pstr "INTJ") (pstr "this")) = false := by
  refine ⟨?_, ?_, by decide, by decide, by decide⟩
  · intro t q kv h
    simp only [simulate_text, h]
  · intro t q q' heq hs
    cases h : first_greeting (pyLower q) with
    | none => rw [h] at hs; cases hs
    | some kv =>
      rw [h] at heq
      have h1 : simulate_text t q = greeting_reply t kv.2 := by simp only [simulate_text, h]
      have h2 : simulate_text t q' = greeting_reply t kv.2 := by
        simp only [simulate_text, heq.symm]
      rw [h1, h2]

/-- Witness for C10: the greeting branch fires for "hey there" and
returns the canned reply for the first matching key "hey". -/
theorem C10_greeting_substring_detection_witness :
    simulate_text (pstr "ESFP") (pstr "hey there")
      = greeting_reply (pstr "ESFP") [pstr "Hey!", pstr "Hi there!", pstr "Hello!"] :=
  C10_greeting_substring_detection.1 (pstr "ESFP") (pstr "hey there")
    (pstr "hey", [pstr "Hey!", pstr "Hi there!", pstr "Hello!"]) (by decide)

/-- C4 counterexample: the stripping loop is a single in-order pass over
the pattern list applied to the progressively stripped text, so
"INTJ:As an INTJ, hello" loses BOTH the "INTJ:" and the "As an INTJ, "
prefixes in one call — the claim's "at most one prefix stripped" fails,
and list order (not pattern length) decides precedence. -/
theorem C4_longest_single_strip_counterexample :
    strip_prefixes (pstr "INTJ") (pstr "INTJ:As an INTJ, hello") = pstr "hello" ∧
    strip_prefixes (pstr "INTJ") (pstr "INTJ:As an INTJ, hello") ≠ pstr "As an INTJ, hello" := by
  decide

/-- C4 (amended): the formatter tries the six patterns in fixed list
order in one pass, stripping every pattern that matches the current
(already partially stripped and whitespace-trimmed) text, so several
prefixes can be stripped in one call, each pattern at most once; when no
pattern matches, the text is unchanged, and stripping only ever removes
characters (the result is a sublist of the input). -/
theorem C4_strip_single_ordered_pass (t s : Str) :
    ((∀ p ∈ prefixes_to_remove t, p.isPrefixOf s = false) → strip_prefixes t s = s) ∧
    List.Sublist (strip_prefixes t s) s :=
  ⟨strip_prefixes_no_match t s, strip_prefixes_sublist t s⟩

/-- Witness for C4 (amended) on a string matching no pattern. -/
theorem C4_strip_single_ordered_pass_witness :
    strip_prefixes (pstr "INTJ") (pstr "nothing to strip") = pstr "nothing to strip" :=
  (C4_strip_single_ordered_pass (pstr "INTJ") (pstr "nothing to strip")).1 (by decide)

/-- C5 counterexample: formatting the empty string as ENFP (with the next
`random.random()` draw below 0.5, so no emoji) returns "!", not the
empty string: the emphasis step is NOT skipped on empty input. -/
theorem C5_empty_unchanged_counterexample :
    (format_response [] (pstr "ENFP") ⟨[false], []⟩).1 = pstr "!" ∧
    (format_response [] (pstr "ENFP") ⟨[false], []⟩).1 ≠ [] := by
  decide

/-- Every prefix pattern is a non-empty string, so none matches the
empty input and stripping leaves it empty. -/
lemma strip_prefixes_nil (t : Str) : strip_prefixes t [] = [] := by
  apply strip_prefixes_no_match
  intro p hp
  have hne : p ≠ [] := by
    rcases (by simpa [prefixes_to_remove] using hp :
        p = t ++ pstr ":" ∨ p = pstr "As an MBTI personality, " ∨
        p = pstr "As an " ++ t ++ pstr " personality, " ∨ p = pstr "As an " ++ t ++ pstr ", " ∨
        p = pstr "As a " ++ t ++ pstr ", " ∨ p = pstr "Response: ") with
      rfl | rfl | rfl | rfl | rfl | rfl <;>
      first
        | decide
        | exact List.append_ne_nil_of_right_ne_nil _ (by decide)
  cases p with
  | nil => exact absurd rfl hne
  | cons c cs => rfl

/-- C5 (amended): formatting the empty string returns it unchanged (with
the random state untouched) exactly for the types outside
{ENFP, ESFP, ENFJ, ENTP}; for those four emphatic types the emphasis
step runs on the empty input and the result starts with "!" (it is "!",
possibly followed by an emoji for ENFP/ESFP).  `format` itself is a
total function, so it never fails. -/
theorem C5_format_empty_input (t : Str) (g : RandState) :
    (t ∉ emphatic_types → format_response [] t g = ([], g)) ∧
    (t ∈ emphatic_types → List.IsPrefix (pstr "!") (format_response [] t g).1) := by
  have hstrip := strip_prefixes_nil t
  constructor
  · intro hE
    simp only [format_response, hstrip, if_neg hE]
  · intro hE
    have hcond : (!pyIn (pstr "!") (strip_prefixes t [])
        && !(pstr "?").isSuffixOf (strip_prefixes t [])) = true := by
      rw [hstrip]; decide
    simp only [format_response, hcond, if_pos hE, if_true, ite_true, hstrip, List.nil_append]
    by_cases hM : t ∈ emoji_types
    · rcases hg : rand_coin g with ⟨b, g'⟩
      cases b
      · simp only [if_pos hM, hg]
        exact List.prefix_rfl
      · simp only [if_pos hM, hg]
        exact (List.prefix_append (pstr "!") (pstr " ")).trans (List.prefix_append _ _)
    · simp only [if_neg hM]
      exact List.prefix_rfl

/-- Witness for C5 (amended): INTJ (not emphatic) leaves the empty
string unchanged; ENFP (emphatic) produces a string starting with "!". -/
theorem C5_format_empty_input_witness :
    format_response [] (pstr "INTJ") rand0 = ([], rand0) ∧
    List.IsPrefix (pstr "!") (format_response [] (pstr "ENFP") rand0).1 :=
  ⟨(C5_format_empty_input (pstr "INTJ") rand0).1 (by decide),
   (C5_format_empty_input (pstr "ENFP") rand0).2 (by decide)⟩

/-- C7 counterexample: formatting "As an INTJ, INTJ: hello" once yields
"INTJ: hello" (the single pass already consumed the "INTJ:" pattern
before "As an INTJ, " exposed a new occurrence), and a second format
strips the now-leading "INTJ:" — so format is NOT idempotent with
respect to prefix stripping. -/
theorem C7_idempotent_counterexample :
    (format_response (pstr "As an INTJ, INTJ: hello") (pstr "INTJ") rand0).1
      = pstr "INTJ: hello" ∧
    (format_response
        (format_response (pstr "As an INTJ, INTJ: hello") (pstr "INTJ") rand0).1
        (pstr "INTJ") rand0).1
      ≠ (format_response (pstr "As an INTJ, INTJ: hello") (pstr "INTJ") rand0).1 := by
  decide

/-- C7 (amended): format is not idempotent for prefix stripping (a
second pass can strip a prefix the first pass exposed), but the
punctuation half of the claim holds: for any source containing neither
"!" nor "?", a formatted and re-formatted text contains at most one "!"
and never the substring "!!". -/
theorem C7_no_double_bang (s t : Str) (g g' : RandState)
    (h1 : s.count '!' = 0) (_h2 : s.count '?' = 0) :
    ((format_response (format_response s t g).1 t g').1).count '!' ≤ 1 ∧
    pyIn (pstr "!!") ((format_response (format_response s t g).1 t g').1) = false := by
  have ha : s.count '!' ≤ 1 := by omega
  have hb := count_format_le_one s t g ha
  have hc := count_format_le_one _ t g' hb
  exact ⟨hc, no_double_bang _ hc⟩

/-- Witness for C7 (amended) on a bang-free, question-free ENFP text. -/
theorem C7_no_double_bang_witness :
    ((format_response (format_response (pstr "sounds great") (pstr "ENFP") rand0).1
        (pstr "ENFP") rand0).1).count '!' ≤ 1 ∧
    pyIn (pstr "!!")
        ((format_response (format_response (pstr "sounds great") (pstr "ENFP") rand0).1
          (pstr "ENFP") rand0).1) = false :=
  C7_no_double_bang (pstr "sounds great") (pstr "ENFP") rand0 rand0 (by decide) (by decide)

lemma openai_go_call_count_le (att : Nat → Except Str Str) :
    ∀ fuel i, call_count (openai_generate_go att fuel i).2 ≤ fuel := by
  intro fuel
  induction fuel with
  | zero => intro i; simp [openai_generate_go, call_count]
  | succ n ih =>
    intro i
    cases h : att i with
    | ok c => simp [openai_generate_go, h, call_count]
    | error e =>
      simp only [openai_generate_go, h]
      split_ifs
      · have := ih (i + 1)
        simp [call_count] at this ⊢
        omega
      · exact Nat.succ_le_succ (Nat.zero_le n)
      · exact Nat.succ_le_succ (Nat.zero_le n)

lemma openai_wait_list_prefix (att : Nat → Except Str Str) :
    List.IsPrefix (wait_list (openai_generate_with_retries att).2) [2 ^ 0 + 1, 2 ^ 1 + 1] := by
  unfold openai_generate_with_retries
  cases h0 : att 0 with
  | ok c0 => simp [openai_generate_go, max_retries, h0, wait_list]
  | error e0 =>
    by_cases r0 : is_rate_limit_error e0 = true
    · cases h1 : att 1 with
      | ok c1 =>
        simp [openai_generate_go, max_retries, h0, r0, h1, wait_list]
      | error e1 =>
        by_cases r1 : is_rate_limit_error e1 = true
        · cases h2 : att 2 with
          | ok c2 =>
            simp [openai_generate_go, max_retries, h0, r0, h1, r1, h2, wait_list]
          | error e2 =>
            by_cases r2 : is_rate_limit_error e2 = true <;>
              simp [openai_generate_go, max_retries, h0, r0, h1, r1, h2, r2, wait_list]
        · simp [openai_generate_go, max_retries, h0, r0, h1, r1, wait_list]
    · simp [openai_generate_go, max_retries, h0, r0, wait_list]

lemma openai_stops_on_other_error (att : Nat → Except Str Str) (j : Nat) (hj : j < 3)
    (hprev : ∀ k, k < j → ∃ e, att k = .error e ∧ is_rate_limit_error e = true)
    (e : Str) (hje : att j = .error e) (hrl : is_rate_limit_error e = false) :
    (openai_generate_with_retries att).1 = none ∧
    call_count (openai_generate_with_retries att).2 = j + 1 := by
  interval_cases j
  · simp [openai_generate_with_retries, openai_generate_go, max_retries, hje, hrl, call_count]
  · obtain ⟨e0, h0, r0⟩ := hprev 0 (by omega)
    simp [openai_generate_with_retries, openai_generate_go, max_retries, h0, r0, hje, hrl,
      call_count]
  · obtain ⟨e0, h0, r0⟩ := hprev 0 (by omega)
    obtain ⟨e1, h1, r1⟩ := hprev 1 (by omega)
    simp [openai_generate_with_retries, openai_generate_go, max_retries, h0, r0, h1, r1, hje,
      hrl, call_count]

lemma openai_gives_up_after_three (att : Nat → Except Str Str)
    (h : ∀ k, k < 3 → ∃ e, att k = .error e ∧ is_rate_limit_error e = true) :
    (openai_generate_with_retries att).1 = none ∧
    call_count (openai_generate_with_retries att).2 = 3 := by
  obtain ⟨e0, h0, r0⟩ := h 0 (by omega)
  obtain ⟨e1, h1, r1⟩ := h 1 (by omega)
  obtain ⟨e2, h2, r2⟩ := h 2 (by omega)
  simp [openai_generate_with_retries, openai_generate_go, max_retries, h0, r0, h1, r1, h2, r2,
    call_count]

/-- C6: the OpenAI adapter — the one provider adapter that detects a
rate-limit condition (by matching "rate limit" or "429" in the lowered
error text) — makes at most 3 generation attempts per call, waits
`2 ^ attempt + 1` seconds between attempts (0-based, so 2s then 3s),
gives up (returns nothing, letting the orchestrator move on) after the
final attempt's rate-limit failure, and never retries a non-rate-limit
error: such an error ends the attempt loop immediately, after exactly
`j + 1` calls when it arises at attempt `j`. -/
theorem C6_openai_retry_policy (att : Nat → Except Str Str) :
    call_count (openai_generate_with_retries att).2 ≤ 3 ∧
    List.IsPrefix (wait_list (openai_generate_with_retries att).2) [2 ^ 0 + 1, 2 ^ 1 + 1] ∧
    (∀ j, j < 3 →
      (∀ k, k < j → ∃ e, att k = .error e ∧ is_rate_limit_error e = true) →
      ∀ e, att j = .error e → is_rate_limit_error e = false →
        (openai_generate_with_retries att).1 = none ∧
        call_count (openai_generate_with_retries att).2 = j + 1) ∧
    ((∀ k, k < 3 → ∃ e, att k = .error e ∧ is_rate_limit_error e = true) →
      (openai_generate_with_retries att).1 = none ∧
      call_count (openai_generate_with_retries att).2 = 3) :=
  ⟨openai_go_call_count_le att max_retries 0,
   openai_wait_list_prefix att,
   fun j hj hprev e hje hrl => openai_stops_on_other_error att j hj hprev e hje hrl,
   fun h => openai_gives_up_after_three att h⟩

/-- Witness for C6: with every attempt failing rate-limited, the loop
makes exactly 3 calls and returns nothing. -/
theorem C6_openai_retry_policy_witness :
    (openai_generate_with_retries fun _ => .error (pstr "Rate limit hit (429)")).1 = none ∧
    call_count (openai_generate_with_retries fun _ => .error (pstr "Rate limit hit (429)")).2
      = 3 :=
  (C6_openai_retry_policy fun _ => .error (pstr "Rate limit hit (429)")).2.2.2
    fun _ _ => ⟨pstr "Rate limit hit (429)", rfl, by decide⟩

lemma build_context_three (f : Str → Str → Str) (topic A B C : Str)
    (hAB : A ≠ B) (hAC : A ≠ C) (hBC : B ≠ C) :
    build_context [A, B, C] (round_responses_1 f topic [A, B, C]) A
      = B ++ pstr ": " ++ f topic B ++ pstr "\n" ++ C ++ pstr ": " ++ f topic C := by
  have hBA : (B == A) = false := by simp [hAB.symm]
  have hCA : (C == A) = false := by simp [hAC.symm]
  have hAB' : (A == B) = false := by simp [hAB]
  have hAC' : (A == C) = false := by simp [hAC]
  have hBC' : (B == C) = false := by simp [hBC]
  simp [build_context, round_responses_1, lookupD, join_sep, hBA, hCA, hAB', hAC', hBC',
    List.append_assoc]

lemma build_context_congr (participants : List Str) (prev prev' : List (Str × Str)) (me : Str)
    (h : ∀ o ∈ participants, o ≠ me → lookupD prev o = lookupD prev' o) :
    build_context participants prev me = build_context participants prev' me := by
  unfold build_context
  congr 1
  apply List.map_congr_left
  intro o ho
  have hmem := List.mem_filter.mp ho
  have hne : o ≠ me := by
    have h2 := hmem.2
    simp only [Bool.not_eq_true'] at h2
    exact fun he => by simp [he] at h2
  rw [h o hmem.1 hne]

/-- C8: in a group discussion with participants [A, B, C], the context
built for A's round-2 prompt is exactly "B: r_B\nC: r_C" where r_B and
r_C are B's and C's round-1 responses — it contains both of the other
participants' responses and is independent of A's own response (fourth
conjunct); in general, a round's context for a participant depends only
on the immediately preceding round's response mapping restricted to the
other participants (last conjunct; `rounds_go` passes exactly the
previous round's pairs as that mapping, replacing earlier rounds). -/
theorem C8_round2_context (respond respond' : Str → Str → Str) (topic A B C : Str)
    (hAB : A ≠ B) (hAC : A ≠ C) (hBC : B ≠ C) :
    build_context [A, B, C] (round_responses_1 respond topic [A, B, C]) A
      = B ++ pstr ": " ++ respond topic B ++ pstr "\n" ++ C ++ pstr ": " ++ respond topic C ∧
    List.IsInfix (respond topic B)
      (build_context [A, B, C] (round_responses_1 respond topic [A, B, C]) A) ∧
    List.IsInfix (respond topic C)
      (build_context [A, B, C] (round_responses_1 respond topic [A, B, C]) A) ∧
    (respond' topic B = respond topic B → respond' topic C = respond topic C →
      build_context [A, B, C] (round_responses_1 respond' topic [A, B, C]) A
        = build_context [A, B, C] (round_responses_1 respond topic [A, B, C]) A) ∧
    (∀ (participants : List Str) (prev prev' : List (Str × Str)) (me : Str),
      (∀ o ∈ participants, o ≠ me → lookupD prev o = lookupD prev' o) →
      build_context participants prev me = build_context participants prev' me) := by
  have key := build_context_three respond topic A B C hAB hAC hBC
  have key' := build_context_three respond' topic A B C hAB hAC hBC
  refine ⟨key, ?_, ?_, ?_, build_context_congr⟩
  · rw [key]
    exact ⟨B ++ pstr ": ", pstr "\n" ++ C ++ pstr ": " ++ respond topic C,
      by simp [List.append_assoc]⟩
  · rw [key]
    exact ⟨B ++ pstr ": " ++ respond topic B ++ pstr "\n" ++ C ++ pstr ": ", [],
      by simp [List.append_assoc]⟩
  · intro hB hC
    rw [key, key', hB, hC]

/-- Witness for C8 at concrete participants INTJ, ENFP, ISTJ and a
concrete responder. -/
theorem C8_round2_context_witness :
    build_context [pstr "INTJ", pstr "ENFP", pstr "ISTJ"]
        (round_responses_1 (fun _ t => t ++ pstr " says") (pstr "ethics")
          [pstr "INTJ", pstr "ENFP", pstr "ISTJ"]) (pstr "INTJ")
      = pstr "ENFP" ++ pstr ": " ++ (pstr "ENFP" ++ pstr " says") ++ pstr "\n" ++
        pstr "ISTJ" ++ pstr ": " ++ (pstr "ISTJ" ++ pstr " says") :=
  (C8_round2_context (fun _ t => t ++ pstr " says") (fun _ t => t ++ pstr " says")
    (pstr "ethics") (pstr "INTJ") (pstr "ENFP") (pstr "ISTJ")
    (by decide) (by decide) (by decide)).1
